import Mathlib

/-!
Verification of the cliq-api-integration core: the OAuth token resolver and
API dispatcher (OAuth variant of lib/cliq-api.ts), and the webhook-variant
client together with the server handler that rejects replies.  Subprocess
boundaries (1Password lookups, curl calls, the cache file) are modelled as
oracles carried in a world record, and every external call is recorded in an
event trace.
-/

/-- JSON values as produced by JSON.parse in the TypeScript code. -/
inductive Json where
  | null : Json
  | bool : Bool → Json
  | num : Int → Json
  | str : String → Json
  | arr : List Json → Json
  | obj : List (String × Json) → Json

/-- Property lookup on a JSON object; any other value yields undefined. -/
def jsonLookup : List (String × Json) → String → Option Json
  | [], _ => none
  | (k, v) :: rest, key => if k = key then some v else jsonLookup rest key

/-- JavaScript property access: an object field, or undefined (none). -/
def Json.get : Json → String → Option Json
  | .obj fields, key => jsonLookup fields key
  | _, _ => none

/-- JavaScript truthiness of a parsed JSON value. -/
def Json.truthy : Json → Bool
  | .null => false
  | .bool b => b
  | .num n => n != 0
  | .str s => s != ""
  | .arr _ => true
  | .obj _ => true

/-- Strict string equality test against a JSON value (the === operator). -/
def Json.isStr : Json → String → Bool
  | .str t, s => t == s
  | _, _ => false

mutual
/-- JavaScript string interpolation of a value into a template literal. -/
def Json.interp : Json → String
  | .null => "null"
  | .bool b => cond b "true" "false"
  | .num n => toString n
  | .str s => s
  | .arr xs => Json.interpList xs
  | .obj _ => "[object Object]"

/-- Array interpolation joins the interpolated elements with commas. -/
def Json.interpList : List Json → String
  | [] => ""
  | [x] => Json.interp x
  | x :: y :: xs => Json.interp x ++ "," ++ Json.interpList (y :: xs)
end

mutual
/-- JSON.stringify of a parsed value (string escaping is not modelled). -/
def Json.stringify : Json → String
  | .null => "null"
  | .bool b => cond b "true" "false"
  | .num n => toString n
  | .str s => "\"" ++ s ++ "\""
  | .arr xs => "[" ++ Json.stringifyList xs ++ "]"
  | .obj fs => "\x7b" ++ Json.stringifyFields fs ++ "\x7d"

/-- Elements of a stringified array, comma separated. -/
def Json.stringifyList : List Json → String
  | [] => ""
  | [x] => Json.stringify x
  | x :: y :: xs => Json.stringify x ++ "," ++ Json.stringifyList (y :: xs)

/-- Fields of a stringified object, comma separated. -/
def Json.stringifyFields : List (String × Json) → String
  | [] => ""
  | [(k, v)] => "\"" ++ k ++ "\":" ++ Json.stringify v
  | (k, v) :: f :: fs =>
      "\"" ++ k ++ "\":" ++ Json.stringify v ++ "," ++ Json.stringifyFields (f :: fs)
end

/-- JSON.stringify applied to the data slot, which may be null. -/
def stringifyOpt : Option Json → String
  | none => "null"
  | some j => j.stringify

/-- Truthiness of an optional string (undefined and the empty string are falsy). -/
def jsTruthyOpt : Option String → Bool
  | none => false
  | some s => s != ""

/-- Value of an optional string at a use site, defaulting to the empty string. -/
def jsStr : Option String → String
  | none => ""
  | some s => s

/-- The JavaScript a-or-else-b idiom on an optional string. -/
def jsOr (a : Option String) (dflt : String) : String :=
  match a with
  | some s => if s != "" then s else dflt
  | none => dflt

/-- The JavaScript n-or-else-d idiom on an optional numeric JSON field. -/
def jsOrNum (j : Option Json) (dflt : Int) : Int :=
  match j with
  | some (.num n) => if n != 0 then n else dflt
  | _ => dflt

/-- The JavaScript startsWith test, expressed on the character list so
that it evaluates by kernel reduction. -/
def jsStartsWith (s pre : String) : Bool :=
  s.data.take pre.data.length == pre.data

/-- Observable external actions: secret-store lookups, token-refresh calls,
API calls (with the authorization token attached), and cache-file writes. -/
inductive Event where
  | opLookup : String → String → Event
  | refreshCall : Event
  | apiCall : String → String → Option Json → Option String → Event
  | fileWrite : Event

namespace Oauth

/-- World state of the OAuth variant: oracle answers for the environment,
the 1Password fields, the refresh and API network exchanges (each API
exchange carries the HTTP status and the parsed body, none meaning the
call or the parse threw), the process-lifetime token cache, the on-disk
cache file (outer none = absent, inner none = unparsable), and the trace. -/
structure World where
  envToken : Option String
  opRefreshToken : Option String
  opClientId : Option String
  opClientSecret : Option String
  refreshResponses : List (Option Json)
  apiResponses : List (Nat × Option Json)
  fileWriteOk : Bool
  now : Int
  cachedToken : Option String
  configFile : Option (Option Json)
  configMode : Nat
  trace : List Event

/-- Record one external event in the trace. -/
def pushEvent (w : World) (e : Event) : World :=
  { w with trace := w.trace ++ [e] }

/-- Default of the CLIQ_OP_ITEM environment setting. -/
def opItemId : String := "cliq.zoho.com"

/-- Default of the CLIQ_BASE_URL environment setting. -/
def baseUrl : String := "https://cliq.zoho.com/api/v2"

/-- Error message when every resolution source is exhausted. -/
def noTokenMsg : String :=
  "No access token available. Check CLIQ_ACCESS_TOKEN env var or 1Password item."

/-- Error message when the post-invalidation re-resolution fails. -/
def refreshFailedMsg : String := "Failed to refresh access token"

/-- Message of the exception thrown when a curl call or JSON.parse fails;
the source surfaces err.message, abstracted here as a fixed string. -/
def execFailMsg : String := "exec failure"

/-- The record written to the cache file on a successful refresh. -/
def cacheRecord (token : String) (expiresAt created : Int) : Json :=
  Json.obj [("access_token", .str token), ("expires_at", .num expiresAt),
            ("created", .num created), ("source", .str "1password-refresh")]

/-- Exchange the refresh token for a new access token (refreshAccessToken in
the source): look up client_id and client_secret, call the token endpoint,
and on success cache the token in memory and best-effort persist it with
mode 600; any failure yields null. -/
def refreshAccessToken (w : World) (_refreshToken : String) : Option String × World :=
  let w1 := pushEvent (pushEvent w (.opLookup opItemId "client_id"))
              (.opLookup opItemId "client_secret")
  if jsTruthyOpt w1.opClientId && jsTruthyOpt w1.opClientSecret then
    let w2 := pushEvent w1 .refreshCall
    match w2.refreshResponses with
    | [] => (none, w2)
    | r :: rest =>
      let w3 := { w2 with refreshResponses := rest }
      match r with
      | none => (none, w3)
      | some resp =>
        match resp.get "access_token" with
        | some tk =>
          if tk.truthy then
            let token := tk.interp
            let expiresIn := jsOrNum (resp.get "expires_in") 3600
            let w4 := pushEvent w3 .fileWrite
            let record := cacheRecord token (w4.now + expiresIn * 1000) w4.now
            let w5 :=
              if w4.fileWriteOk then
                { w4 with configFile := some (some record), configMode := 384 }
              else w4
            (some token, { w5 with cachedToken := some token })
          else (none, w3)
        | none => (none, w3)
  else (none, w1)

/-- Step 3 of the resolution chain: look up the refresh token in the secret
store and, when present, attempt the refresh exchange. -/
def loadTokenOp (w : World) : Option String × World :=
  let w1 := pushEvent w (.opLookup opItemId "refresh_token")
  match w1.opRefreshToken with
  | some rt => if rt != "" then refreshAccessToken w1 rt else (none, w1)
  | none => (none, w1)

/-- Step 2 of the resolution chain: the on-disk cache record is used only
when it parses, has a truthy access_token and expires_at, and the expiry
instant is strictly in the future; otherwise fall through to the store. -/
def loadTokenFile (w : World) : Option String × World :=
  match w.configFile with
  | some (some cfg) =>
    match cfg.get "access_token", cfg.get "expires_at" with
    | some tk, some ea =>
      if tk.truthy && ea.truthy && (match ea with | .num e => w.now < e | _ => false) then
        (some tk.interp, { w with cachedToken := some tk.interp })
      else loadTokenOp w
    | _, _ => loadTokenOp w
  | _ => loadTokenOp w

/-- Resolve an access token (loadToken in the source): in-memory cache,
then the CLIQ_ACCESS_TOKEN environment override, then the on-disk cache,
then the secret store plus refresh exchange; null when all fail. -/
def loadToken (w : World) : Option String × World :=
  if jsTruthyOpt w.cachedToken then (w.cachedToken, w)
  else
    match w.envToken with
    | some t => if t != "" then (some t, { w with cachedToken := some t })
                else loadTokenFile w
    | none => loadTokenFile w

/-- Invalidate the credential (clearTokenCache in the source): drop the
in-memory slot and, when the cache file exists, best-effort reset it to an
empty object with mode 600. -/
def clearTokenCache (w : World) : World :=
  let w1 := { w with cachedToken := none }
  match w1.configFile with
  | some _ =>
    let w2 := pushEvent w1 .fileWrite
    if w2.fileWriteOk then
      { w2 with configFile := some (some (Json.obj [])), configMode := 384 }
    else w2
  | none => w1

/-- Result of apiRequest: parsed body and error slot, both nullable. -/
structure ApiResponse where
  data : Option Json
  error : Option String

/-- Issue one curl call: record the API event and consume the next queued
exchange; an empty queue behaves like a throwing call. -/
def popApi (w : World) (url m : String) (body : Option Json) (token : String) :
    Option Json × World :=
  let w1 := pushEvent w (.apiCall url m body (some token))
  match w1.apiResponses with
  | (_, b) :: rest => (b, { w1 with apiResponses := rest })
  | [] => (none, w1)

/-- Application-level auth-rejection test on a parsed body: the code field
strictly equals INVALID_OAUTH or OAUTH_EXPIRED. -/
def authRejected (data : Json) : Bool :=
  match data.get "code" with
  | some j => j.isStr "INVALID_OAUTH" || j.isStr "OAUTH_EXPIRED"
  | none => false

/-- Dispatch one API call (apiRequest in the source): resolve the token,
issue the curl call, and on an auth-rejection body invalidate the cache,
re-resolve once, and reissue the identical request with the new token; the
retried response is returned as data with a null error, unconditionally.
The HTTP status is never observed (curl -s prints only the body). -/
def apiRequest (w : World) (endpoint m : String) (body : Option Json) :
    ApiResponse × World :=
  let r0 := loadToken w
  match r0.1 with
  | none => ({ data := none, error := some noTokenMsg }, r0.2)
  | some token =>
    let url := if jsStartsWith endpoint "http" then endpoint else baseUrl ++ endpoint
    let r1 := popApi r0.2 url m body token
    match r1.1 with
    | none => ({ data := none, error := some execFailMsg }, r1.2)
    | some data =>
      if authRejected data then
        let w3 := clearTokenCache r1.2
        let r2 := loadToken w3
        match r2.1 with
        | none => ({ data := none, error := some refreshFailedMsg }, r2.2)
        | some newToken =>
          let r3 := popApi r2.2 url m body newToken
          match r3.1 with
          | none => ({ data := none, error := some execFailMsg }, r3.2)
          | some retryData => ({ data := some retryData, error := none }, r3.2)
      else ({ data := some data, error := none }, r1.2)

/-- Read-only projection of a raw channel entry; the fields are copied
exactly as JavaScript property reads (undefined when absent). -/
structure CliqChannel where
  id : Option Json
  name : Option Json
  unique_name : Option Json

/-- Map one raw entry to the channel shape, copying the three fields. -/
def mapChannel (j : Json) : CliqChannel :=
  { id := j.get "id", name := j.get "name", unique_name := j.get "unique_name" }

/-- Result of listChannels. -/
structure ChannelsResult where
  channels : List CliqChannel
  error : Option String

/-- Message raised when mapping a truthy non-array channels field; in the
source this is a thrown TypeError escaping to the transport boundary. -/
def mapThrowMsg : String := "response.channels.map is not a function"

/-- List channels (listChannels in the source, OAuth variant). -/
def listChannels (w : World) : ChannelsResult × World :=
  let r := apiRequest w "/channels" "GET" none
  match r.1.error with
  | some e => ({ channels := [], error := some e }, r.2)
  | none =>
    match r.1.data with
    | none => ({ channels := [], error := none }, r.2)
    | some d =>
      if d.truthy then
        match d.get "channels" with
        | some (.arr xs) => ({ channels := xs.map mapChannel, error := none }, r.2)
        | some j =>
          if j.truthy then ({ channels := [], error := some mapThrowMsg }, r.2)
          else ({ channels := [], error := some "Unexpected response format" }, r.2)
        | none => ({ channels := [], error := some "Unexpected response format" }, r.2)
      else ({ channels := [], error := none }, r.2)

/-- Input of sendMessage: required text and four optional selectors. -/
structure SendMessageInput where
  text : String
  channelId : Option String
  channelName : Option String
  chatId : Option String
  userId : Option String

/-- Endpoint selection in sendMessage: the first truthy selector in the
order channelId, channelName, chatId, userId wins; none when all are falsy. -/
def selectEndpoint (i : SendMessageInput) : Option String :=
  if jsTruthyOpt i.channelId then
    some ("/channels/" ++ jsStr i.channelId ++ "/messages")
  else if jsTruthyOpt i.channelName then
    some ("/channelsbyname/" ++ jsStr i.channelName ++ "/message")
  else if jsTruthyOpt i.chatId then
    some ("/chats/" ++ jsStr i.chatId ++ "/messages")
  else if jsTruthyOpt i.userId then
    some ("/users/" ++ jsStr i.userId ++ "/messages")
  else none

/-- Body posted by sendMessage. -/
def sendPayload (text : String) : Json :=
  Json.obj [("text", .str text), ("sync_message", .bool true)]

/-- Result of sendMessage. -/
structure SendResult where
  message : Option Json
  error : Option String

/-- Send a message (sendMessage in the source, OAuth variant). -/
def sendMessage (w : World) (input : SendMessageInput) : SendResult × World :=
  if input.text = "" then
    ({ message := none, error := some "Message text is required" }, w)
  else
    match selectEndpoint input with
    | none =>
      ({ message := none,
         error := some "Must specify channelId, channelName, chatId, or userId" }, w)
    | some endpoint =>
      let r := apiRequest w endpoint "POST" (some (sendPayload input.text))
      match r.1.error with
      | some e => ({ message := none, error := some e }, r.2)
      | none =>
        match r.1.data with
        | none => ({ message := none, error := none }, r.2)
        | some d =>
          if d.truthy then ({ message := some d, error := none }, r.2)
          else ({ message := none, error := none }, r.2)

/-- Input of replyToMessage. -/
structure ReplyInput where
  messageId : String
  text : String

/-- Body posted by replyToMessage. -/
def replyPayload (text messageId : String) : Json :=
  Json.obj [("text", .str text), ("parent_message_id", .str messageId)]

/-- Result of replyToMessage. -/
structure ReplyResult where
  reply : Option Json
  error : Option String

/-- Reply to a message (replyToMessage in the source, OAuth variant). -/
def replyToMessage (w : World) (input : ReplyInput) : ReplyResult × World :=
  if input.text = "" || input.messageId = "" then
    ({ reply := none, error := some "Message ID and text are required" }, w)
  else
    let r := apiRequest w "/messages" "POST"
               (some (replyPayload input.text input.messageId))
    match r.1.error with
    | some e => ({ reply := none, error := some e }, r.2)
    | none =>
      match r.1.data with
      | none => ({ reply := none, error := none }, r.2)
      | some d =>
        if d.truthy then ({ reply := some d, error := none }, r.2)
        else ({ reply := none, error := none }, r.2)

end Oauth

namespace Webhook

/-- World state of the webhook variant: oracle answers for the environment
and the two 1Password items, the refresh and HTTP exchanges (an HTTP
exchange carries the status written by curl and the parsed body, none
meaning an empty or non-JSON body), the two in-memory credential slots
with the OAuth expiry instant, the configurable defaults, and the trace. -/
structure World where
  envZapikey : Option String
  opCredential : Option String
  opRefreshToken : Option String
  opClientId : Option String
  opClientSecret : Option String
  refreshResponses : List (Option Json)
  httpResponses : List (Nat × Option Json)
  now : Int
  cachedZapikey : Option String
  cachedOAuthToken : Option String
  oauthExpiresAt : Int
  defaultChannel : String
  botName : String
  trace : List Event

/-- Record one external event in the trace. -/
def pushEvent (w : World) (e : Event) : World :=
  { w with trace := w.trace ++ [e] }

/-- Default of the CLIQ_WEBHOOK_OP_ITEM environment setting. -/
def webhookOpItem : String := "Cliq luminous-agent-api"

/-- Default of the CLIQ_OAUTH_OP_ITEM environment setting. -/
def oauthOpItem : String := "cliq.zoho.com"

/-- Base URL of the REST API. -/
def baseUrl : String := "https://cliq.zoho.com/api/v2"

/-- Resolve the webhook key (getZapikey in the source): in-memory slot,
then the CLIQ_ZAPIKEY environment override, then the secret store; the
store result is cached even when it is null. -/
def getZapikey (w : World) : Option String × World :=
  if jsTruthyOpt w.cachedZapikey then (w.cachedZapikey, w)
  else if jsTruthyOpt w.envZapikey then
    (w.envZapikey, { w with cachedZapikey := w.envZapikey })
  else
    let w1 := pushEvent w (.opLookup webhookOpItem "credential")
    (w1.opCredential, { w1 with cachedZapikey := w1.opCredential })

/-- Resolve the OAuth token (getOAuthToken in the source): the in-memory
slot is used only while now is before the recorded expiry; otherwise the
three 1Password fields are read and the refresh exchange is attempted. -/
def getOAuthToken (w : World) : Option String × World :=
  if jsTruthyOpt w.cachedOAuthToken && decide (w.now < w.oauthExpiresAt) then
    (w.cachedOAuthToken, w)
  else
    let w1 := pushEvent w (.opLookup oauthOpItem "refresh_token")
    if !jsTruthyOpt w1.opRefreshToken then (none, w1)
    else
      let w2 := pushEvent (pushEvent w1 (.opLookup oauthOpItem "client_id"))
                  (.opLookup oauthOpItem "client_secret")
      if !(jsTruthyOpt w2.opClientId && jsTruthyOpt w2.opClientSecret) then (none, w2)
      else
        let w3 := pushEvent w2 .refreshCall
        match w3.refreshResponses with
        | [] => (none, w3)
        | r :: rest =>
          let w4 := { w3 with refreshResponses := rest }
          match r with
          | none => (none, w4)
          | some resp =>
            match resp.get "access_token" with
            | some tk =>
              if tk.truthy then
                let token := tk.interp
                let expiry := w4.now + jsOrNum (resp.get "expires_in") 3600 * 1000
                let w5 := { w4 with cachedOAuthToken := some token, oauthExpiresAt := expiry }
                (some token, w5)
              else (none, w4)
            | none => (none, w4)

/-- Result of curlJson: parsed body (null on an empty or non-JSON body)
and the HTTP status code written by curl. -/
structure CurlResult where
  data : Option Json
  status : Nat

/-- Issue one curl call (curlJson in the source): record the event with
the optional bearer credential and consume the next queued exchange. -/
def curlJson (w : World) (url m : String) (auth : Option String)
    (body : Option Json) : CurlResult × World :=
  let w1 := pushEvent w (.apiCall url m body auth)
  match w1.httpResponses with
  | (st, b) :: rest => ({ data := b, status := st }, { w1 with httpResponses := rest })
  | [] => ({ data := none, status := 0 }, w1)

/-- Result of listChannels. -/
structure ChannelsResult where
  channels : List Oauth.CliqChannel
  error : Option String

/-- Error message when no OAuth token can be resolved. -/
def noOAuthMsg : String :=
  "No OAuth token available. Check 1Password item \x27cliq.zoho.com\x27."

/-- Error string wrapping a non-2xx status and the stringified body. -/
def httpErr (status : Nat) (data : Option Json) : String :=
  "HTTP " ++ toString status ++ ": " ++ stringifyOpt data

/-- List channels (listChannels in the source, webhook variant): resolve
the OAuth token, GET the channels endpoint, classify by status, and map
the channel array when present. -/
def listChannels (w : World) : ChannelsResult × World :=
  let r0 := getOAuthToken w
  if !jsTruthyOpt r0.1 then
    ({ channels := [], error := some noOAuthMsg }, r0.2)
  else
    let r := curlJson r0.2 (baseUrl ++ "/channels") "GET" r0.1 none
    if r.1.status < 200 || 300 ≤ r.1.status then
      ({ channels := [], error := some (httpErr r.1.status r.1.data) }, r.2)
    else
      match (match r.1.data with | some d => d.get "channels" | none => none) with
      | some (.arr xs) => ({ channels := xs.map Oauth.mapChannel, error := none }, r.2)
      | some j =>
        if j.truthy then ({ channels := [], error := some Oauth.mapThrowMsg }, r.2)
        else ({ channels := [], error := some "Unexpected response format" }, r.2)
      | none => ({ channels := [], error := some "Unexpected response format" }, r.2)

/-- Input of the webhook-variant sendMessage; chatId and userId are
declared in the source interface but never read by the implementation. -/
structure SendMessageInput where
  text : String
  channelName : Option String
  chatId : Option String
  userId : Option String

/-- Result of the webhook-variant sendMessage. -/
structure SendResult where
  success : Bool
  error : Option String

/-- Error message when no webhook key can be resolved. -/
def noZapikeyMsg : String :=
  "No webhook token available. Check 1Password item \x27Cliq luminous-agent-api\x27."

/-- URL of the bot incoming-webhook endpoint with the embedded key. -/
def webhookUrl (botName zapikey : String) : String :=
  baseUrl ++ "/bots/" ++ botName ++ "/incoming?zapikey=" ++ zapikey

/-- Send a message (sendMessage in the source, webhook variant): the
channel falls back to the configured default, the key rides in the URL,
and the result is classified by status only. -/
def sendMessage (w : World) (input : SendMessageInput) : SendResult × World :=
  if input.text = "" then
    ({ success := false, error := some "Message text is required" }, w)
  else
    let r0 := getZapikey w
    if !jsTruthyOpt r0.1 then
      ({ success := false, error := some noZapikeyMsg }, r0.2)
    else
      let channel := jsOr input.channelName r0.2.defaultChannel
      let url := webhookUrl r0.2.botName (jsStr r0.1)
      let payload := Json.obj [("text", .str input.text), ("channel", .str channel)]
      let r := curlJson r0.2 url "POST" none (some payload)
      if 200 ≤ r.1.status && r.1.status < 300 then
        ({ success := true, error := none }, r.2)
      else
        ({ success := false, error := some (httpErr r.1.status r.1.data) }, r.2)

/-- Result returned by the tool-invocation handler. -/
structure ToolResult where
  text : String
  isError : Bool

/-- Handler case for cliq_reply_to_message in the webhook-only server: a
fixed not-supported result is returned directly, before any client call. -/
def handleReplyToMessage (w : World) (_args : Json) : ToolResult × World :=
  ({ text := "Reply-to-message is not yet supported via bot webhook.",
     isError := true }, w)

end Webhook

/-- Default OAuth-variant world: every oracle empty, clock at zero. -/
def baseWorld : Oauth.World :=
  { envToken := none, opRefreshToken := none, opClientId := none,
    opClientSecret := none, refreshResponses := [], apiResponses := [],
    fileWriteOk := true, now := 0, cachedToken := none, configFile := none,
    configMode := 0, trace := [] }

/-- Default webhook-variant world. -/
def webhookBase : Webhook.World :=
  { envZapikey := none, opCredential := none, opRefreshToken := none,
    opClientId := none, opClientSecret := none, refreshResponses := [],
    httpResponses := [], now := 0, cachedZapikey := none,
    cachedOAuthToken := none, oauthExpiresAt := 0,
    defaultChannel := "luminous", botName := "guidobarton", trace := [] }

/-- Response body carrying one of the recognized auth-rejection codes. -/
def authRejBody : Json := Json.obj [("code", Json.str "INVALID_OAUTH")]

/-- World for the C1 scenarios: a cached token, an environment override for
the re-resolution, and two consecutive auth-rejection responses. -/
def c1World : Oauth.World :=
  { baseWorld with
    cachedToken := some "t1", envToken := some "t2",
    apiResponses := [(200, some authRejBody), (200, some authRejBody)] }

/-- World for the C1 refresh-failure scenario: a cached token, one
auth-rejection response, and every re-resolution source exhausted. -/
def c1WorldB : Oauth.World :=
  { baseWorld with
    cachedToken := some "t1",
    apiResponses := [(200, some authRejBody)] }

/-- Successful-looking message body. -/
def c2Body : Json := Json.obj [("id", Json.str "m1")]

/-- World where the one queued API exchange has HTTP status 500. -/
def c2World : Oauth.World :=
  { baseWorld with
    cachedToken := some "tok",
    apiResponses := [(500, some c2Body)] }

/-- Input selecting channel 42. -/
def c2Input : Oauth.SendMessageInput :=
  { text := "hi", channelId := some "42", channelName := none,
    chatId := none, userId := none }

/-- Webhook-variant world with a valid cached OAuth token and one queued
404 exchange. -/
def c2WebWorld : Webhook.World :=
  { webhookBase with
    cachedOAuthToken := some "tok", oauthExpiresAt := 10,
    httpResponses := [(404, some c2Body)] }

/-- World where the one queued exchange is a 200 whose parsed body is the
number 0, which lacks every field. -/
def c7World : Oauth.World :=
  { baseWorld with
    cachedToken := some "tok",
    apiResponses := [(200, some (Json.num 0))] }

/-- On-disk record whose expiry instant 5 is long past. -/
def staleCfg : Json := Oauth.cacheRecord "old" 5 1

/-- World holding a stale in-memory token while the clock is far beyond
every recorded expiry. -/
def c9World : Oauth.World :=
  { baseWorld with
    cachedToken := some "stale",
    configFile := some (some staleCfg), now := 999999 }

def c6Input : Oauth.SendMessageInput :=
  { text := "", channelId := some "1", channelName := some "general",
    chatId := none, userId := none }

def c6Reply : Oauth.ReplyInput := { messageId := "", text := "hello" }

def c10Input : Oauth.SendMessageInput :=
  { text := "hi", channelId := some "A", channelName := some "B",
    chatId := some "C", userId := some "D" }

def c10InputB : Oauth.SendMessageInput :=
  { text := "hi", channelId := none, channelName := some "B",
    chatId := some "C", userId := some "D" }

def c10InputC : Oauth.SendMessageInput :=
  { text := "hi", channelId := none, channelName := none,
    chatId := some "C", userId := some "D" }

def c10InputD : Oauth.SendMessageInput :=
  { text := "hi", channelId := none, channelName := none,
    chatId := none, userId := some "D" }

def c3EnvWorld : Oauth.World := { baseWorld with envToken := some "envtok" }

def c3DiskWorld : Oauth.World :=
  { baseWorld with
    configFile := some (some (Oauth.cacheRecord "disk" 100 0)), now := 50 }

def c3ExpiredWorld : Oauth.World :=
  { baseWorld with
    configFile := some (some (Oauth.cacheRecord "disk" 100 0)), now := 100 }

def c4Resp : Json :=
  Json.obj [("access_token", .str "newtok"), ("expires_in", .num 7200)]

def c4World : Oauth.World :=
  { baseWorld with
    opClientId := some "cid", opClientSecret := some "sec",
    refreshResponses := [some c4Resp], now := 1000 }

def c4NetFailWorld : Oauth.World :=
  { baseWorld with
    opClientId := some "cid", opClientSecret := some "sec",
    refreshResponses := [none] }

def c4NoTokWorld : Oauth.World :=
  { baseWorld with
    opClientId := some "cid", opClientSecret := some "sec",
    refreshResponses := [some (Json.obj [("error", .str "invalid_code")])] }

def c5InA : Oauth.SendMessageInput :=
  { text := "hi", channelId := some "A", channelName := none,
    chatId := none, userId := none }

def c5InB : Oauth.SendMessageInput :=
  { text := "hi", channelId := none, channelName := some "B",
    chatId := none, userId := none }

def c5InC : Oauth.SendMessageInput :=
  { text := "hi", channelId := none, channelName := none,
    chatId := some "C", userId := none }

def c5InD : Oauth.SendMessageInput :=
  { text := "hi", channelId := none, channelName := none,
    chatId := none, userId := some "D" }

def c5InNone : Oauth.SendMessageInput :=
  { text := "hi", channelId := none, channelName := none,
    chatId := none, userId := none }

def c5DispatchWorld : Oauth.World :=
  { baseWorld with
    cachedToken := some "tok", apiResponses := [(201, some c2Body)] }

def c5WebWorld : Webhook.World :=
  { webhookBase with
    cachedZapikey := some "zap", httpResponses := [(204, none)] }

def c5WebIn : Webhook.SendMessageInput :=
  { text := "hi", channelName := none, chatId := none, userId := none }

def chanEntry : Json :=
  Json.obj [("id", .str "1"), ("name", .str "General"),
            ("unique_name", .str "general")]

def chanBody : Json := Json.obj [("channels", .arr [chanEntry])]

def c7NoFieldWorld : Oauth.World :=
  { baseWorld with
    cachedToken := some "tok",
    apiResponses := [(200, some (Json.obj [("ok", .bool true)]))] }

def c7GoodWorld : Oauth.World :=
  { baseWorld with
    cachedToken := some "tok", apiResponses := [(200, some chanBody)] }

def c7WebNoFieldWorld : Webhook.World :=
  { webhookBase with
    cachedOAuthToken := some "tok", oauthExpiresAt := 10,
    httpResponses := [(200, some (Json.obj [("ok", .bool true)]))] }

def c7WebGoodWorld : Webhook.World :=
  { webhookBase with
    cachedOAuthToken := some "tok", oauthExpiresAt := 10,
    httpResponses := [(200, some chanBody)] }

def isHttpError : Option String → Bool
  | some e => e.data.take 5 == "HTTP ".data
  | none => false

def c2StatusWorld (s : Nat) : Oauth.World :=
  { baseWorld with
    cachedToken := some "tok", apiResponses := [(s, some c2Body)] }

def c2WebSendWorld : Webhook.World :=
  { webhookBase with
    cachedZapikey := some "zap", httpResponses := [(500, some c2Body)] }

def c2WebOkWorld : Webhook.World :=
  { webhookBase with
    cachedZapikey := some "zap", httpResponses := [(204, none)] }

@[simp] theorem pushEvent_envToken (w : Oauth.World) (e : Event) :
    (Oauth.pushEvent w e).envToken = w.envToken := rfl
@[simp] theorem pushEvent_opRefreshToken (w : Oauth.World) (e : Event) :
    (Oauth.pushEvent w e).opRefreshToken = w.opRefreshToken := rfl
@[simp] theorem pushEvent_opClientId (w : Oauth.World) (e : Event) :
    (Oauth.pushEvent w e).opClientId = w.opClientId := rfl
@[simp] theorem pushEvent_opClientSecret (w : Oauth.World) (e : Event) :
    (Oauth.pushEvent w e).opClientSecret = w.opClientSecret := rfl
@[simp] theorem pushEvent_refreshResponses (w : Oauth.World) (e : Event) :
    (Oauth.pushEvent w e).refreshResponses = w.refreshResponses := rfl
@[simp] theorem pushEvent_apiResponses (w : Oauth.World) (e : Event) :
    (Oauth.pushEvent w e).apiResponses = w.apiResponses := rfl
@[simp] theorem pushEvent_fileWriteOk (w : Oauth.World) (e : Event) :
    (Oauth.pushEvent w e).fileWriteOk = w.fileWriteOk := rfl
@[simp] theorem pushEvent_now (w : Oauth.World) (e : Event) :
    (Oauth.pushEvent w e).now = w.now := rfl
@[simp] theorem pushEvent_cachedToken (w : Oauth.World) (e : Event) :
    (Oauth.pushEvent w e).cachedToken = w.cachedToken := rfl
@[simp] theorem pushEvent_configFile (w : Oauth.World) (e : Event) :
    (Oauth.pushEvent w e).configFile = w.configFile := rfl
@[simp] theorem pushEvent_configMode (w : Oauth.World) (e : Event) :
    (Oauth.pushEvent w e).configMode = w.configMode := rfl
@[simp] theorem pushEvent_trace (w : Oauth.World) (e : Event) :
    (Oauth.pushEvent w e).trace = w.trace ++ [e] := rfl

/-- Invalidation always leaves the in-memory slot empty, whatever the
cache-file state or the outcome of the best-effort file write. -/
theorem clearCache_none (w : Oauth.World) :
    (Oauth.clearTokenCache w).cachedToken = none := by
  cases hc : w.configFile with
  | none => simp [Oauth.clearTokenCache, hc]
  | some v =>
    cases hw : w.fileWriteOk <;>
      simp [Oauth.clearTokenCache, hc, hw]

/-- A successful refresh exchange stores the returned token in the
in-memory slot. -/
theorem refresh_caches (w : Oauth.World) (rt t : String) :
    (Oauth.refreshAccessToken w rt).1 = some t →
    (Oauth.refreshAccessToken w rt).2.cachedToken = some t := by
  unfold Oauth.refreshAccessToken
  cases hci : jsTruthyOpt w.opClientId <;> cases hcs : jsTruthyOpt w.opClientSecret <;>
    simp [hci, hcs]
  cases hr : w.refreshResponses with
  | nil => simp
  | cons r rest =>
    cases r with
    | none => simp
    | some resp =>
      cases hat : resp.get "access_token" with
      | none => simp [hat]
      | some tk =>
        cases ht : tk.truthy <;> cases hf : w.fileWriteOk <;> simp [hat, ht, hf]

/-- A successful secret-store resolution stores the returned token in the
in-memory slot. -/
theorem loadTokenOp_caches (w : Oauth.World) (t : String) :
    (Oauth.loadTokenOp w).1 = some t → (Oauth.loadTokenOp w).2.cachedToken = some t := by
  unfold Oauth.loadTokenOp
  cases hr : w.opRefreshToken with
  | none => simp [hr]
  | some rt =>
    simp only [pushEvent_opRefreshToken, hr]
    split
    · exact refresh_caches _ rt t
    · simp

/-- A successful file or store resolution stores the returned token in the
in-memory slot. -/
theorem loadTokenFile_caches (w : Oauth.World) (t : String) :
    (Oauth.loadTokenFile w).1 = some t → (Oauth.loadTokenFile w).2.cachedToken = some t := by
  unfold Oauth.loadTokenFile
  cases hc : w.configFile with
  | none => exact loadTokenOp_caches w t
  | some oc =>
    cases oc with
    | none => exact loadTokenOp_caches w t
    | some cfg =>
      cases hat : cfg.get "access_token" with
      | none => simp [hat]; exact loadTokenOp_caches w t
      | some tk =>
        cases hea : cfg.get "expires_at" with
        | none => simp [hat, hea]; exact loadTokenOp_caches w t
        | some ea =>
          simp only [hat, hea]
          split
          · intro h; simp_all
          · exact loadTokenOp_caches w t

/-- Every path of a successful resolution leaves the returned token in the
in-memory slot of the resulting world. -/
theorem loadToken_caches (w : Oauth.World) (t : String) :
    (Oauth.loadToken w).1 = some t → (Oauth.loadToken w).2.cachedToken = some t := by
  unfold Oauth.loadToken
  by_cases hct : jsTruthyOpt w.cachedToken = true
  case pos =>
    rw [if_pos hct]
    intro h; simpa using h
  case neg =>
    rw [if_neg hct]
    cases he : w.envToken with
    | none => simp [he]; exact loadTokenFile_caches w t
    | some et =>
      simp only [he]
      split
      · intro h; simp_all
      · exact loadTokenFile_caches w t

@[simp] theorem jsTruthyOpt_none : jsTruthyOpt none = false := rfl
@[simp] theorem jsTruthyOpt_some (s : String) : jsTruthyOpt (some s) = (s != "") := rfl
@[simp] theorem jsStr_none : jsStr none = "" := rfl
@[simp] theorem jsStr_some (s : String) : jsStr (some s) = s := rfl

set_option maxHeartbeats 1600000 in
/-- The dispatcher surfaces exactly three error strings: the missing-token
message, the thrown-call message, and the refresh-failure message. -/
theorem apiRequest_error_cases (w : Oauth.World) (e m : String) (b : Option Json) :
    (Oauth.apiRequest w e m b).1.error = none ∨
    (Oauth.apiRequest w e m b).1.error = some Oauth.noTokenMsg ∨
    (Oauth.apiRequest w e m b).1.error = some Oauth.execFailMsg ∨
    (Oauth.apiRequest w e m b).1.error = some Oauth.refreshFailedMsg := by
  simp only [Oauth.apiRequest]
  repeat' split <;> (try simp)

/-- Endpoint selection fails exactly when all four selectors are falsy. -/
theorem selectEndpoint_none_iff (i : Oauth.SendMessageInput) :
    Oauth.selectEndpoint i = none ↔
      (jsTruthyOpt i.channelId = false ∧ jsTruthyOpt i.channelName = false ∧
       jsTruthyOpt i.chatId = false ∧ jsTruthyOpt i.userId = false) := by
  unfold Oauth.selectEndpoint
  repeat' split <;> (try simp_all)

/-- With non-empty text and a selected endpoint, the sendMessage error is
the dispatched request error. -/
theorem sendMessage_error_eq (w : Oauth.World) (i : Oauth.SendMessageInput)
    (ep : String) (ht : ¬ i.text = "") (hse : Oauth.selectEndpoint i = some ep) :
    (Oauth.sendMessage w i).1.error =
      (Oauth.apiRequest w ep "POST" (some (Oauth.sendPayload i.text))).1.error := by
  unfold Oauth.sendMessage
  simp only [ht, hse, if_false]
  repeat' split <;> (try simp_all)

/-- Claim C9: in the OAuth variant the in-memory token slot is returned by
loadToken without any expiry check and without side effects, however far
the clock has advanced, until clearTokenCache resets the slot to none; a
stored token is a non-empty string, which the hypothesis records. -/
theorem c9_memory_cache_never_expires :
    (∀ w t, w.cachedToken = some t → t ≠ "" → Oauth.loadToken w = (some t, w)) ∧
    (∀ w, (Oauth.clearTokenCache w).cachedToken = none) := by
  constructor
  · intro w t h hne; simp [Oauth.loadToken, h, hne]
  · exact clearCache_none

/-- Witness for C9: with the clock at 999999, far beyond the recorded
expiry instant 5, the stale in-memory token is still returned unchanged,
and clearing resets the slot. -/
theorem c9_witness :
    Oauth.loadToken c9World = (some "stale", c9World) ∧
    (Oauth.clearTokenCache c9World).cachedToken = none :=
  ⟨c9_memory_cache_never_expires.1 c9World "stale" rfl (by decide),
   c9_memory_cache_never_expires.2 c9World⟩

/-- Claim C6: empty text makes sendMessage return the required-text error
with the world unchanged - no credential resolution and no network call -
whatever the selectors hold; replyToMessage behaves the same on empty text
or empty message id. -/
theorem c6_empty_input_rejected_before_any_call :
    (∀ w i, i.text = "" →
       Oauth.sendMessage w i =
         ({ message := none, error := some "Message text is required" }, w)) ∧
    (∀ w i, i.text = "" ∨ i.messageId = "" →
       Oauth.replyToMessage w i =
         ({ reply := none, error := some "Message ID and text are required" }, w)) := by
  constructor
  · intro w i h; simp [Oauth.sendMessage, h]
  · intro w i h
    rcases h with h | h <;> simp [Oauth.replyToMessage, h]

/-- Claim C8: the webhook-only server answers every reply-to-message
invocation with the fixed not-supported result and returns the world
untouched, so no credential resolution and no network call happen. -/
theorem c8_webhook_reply_fixed_not_supported :
    ∀ w a, Webhook.handleReplyToMessage w a =
      ({ text := "Reply-to-message is not yet supported via bot webhook.",
         isError := true }, w) :=
  fun _ _ => rfl

/-- Claim C10: with several selectors present the OAuth sendMessage does
not fail: the endpoint follows the fixed priority channelId, channelName,
chatId, userId, ignoring the lower-priority selectors, and the
must-specify error never arises once some selector is truthy. -/
theorem c10_multiple_selectors_priority :
    (∀ i c, i.channelId = some c → c ≠ "" →
       Oauth.selectEndpoint i = some ("/channels/" ++ c ++ "/messages")) ∧
    (∀ i c, jsTruthyOpt i.channelId = false → i.channelName = some c → c ≠ "" →
       Oauth.selectEndpoint i = some ("/channelsbyname/" ++ c ++ "/message")) ∧
    (∀ i c, jsTruthyOpt i.channelId = false → jsTruthyOpt i.channelName = false →
       i.chatId = some c → c ≠ "" →
       Oauth.selectEndpoint i = some ("/chats/" ++ c ++ "/messages")) ∧
    (∀ i c, jsTruthyOpt i.channelId = false → jsTruthyOpt i.channelName = false →
       jsTruthyOpt i.chatId = false → i.userId = some c → c ≠ "" →
       Oauth.selectEndpoint i = some ("/users/" ++ c ++ "/messages")) ∧
    (∀ w i, ¬ i.text = "" →
       (jsTruthyOpt i.channelId || jsTruthyOpt i.channelName ||
        jsTruthyOpt i.chatId || jsTruthyOpt i.userId) = true →
       (Oauth.sendMessage w i).1.error ≠
         some "Must specify channelId, channelName, chatId, or userId") := by
  refine ⟨?_, ?_, ?_, ?_, ?_⟩
  · intro i c h hc
    simp [Oauth.selectEndpoint, h, hc]
  · intro i c h0 h hc
    simp [Oauth.selectEndpoint, h0, h, hc]
  · intro i c h0 h1 h hc
    simp [Oauth.selectEndpoint, h0, h1, h, hc]
  · intro i c h0 h1 h2 h hc
    simp [Oauth.selectEndpoint, h0, h1, h2, h, hc]
  · intro w i ht hsel
    cases hse : Oauth.selectEndpoint i with
    | none =>
      rw [selectEndpoint_none_iff] at hse
      simp [hse.1, hse.2.1, hse.2.2.1, hse.2.2.2] at hsel
    | some ep =>
      rw [sendMessage_error_eq w i ep ht hse]
      rcases apiRequest_error_cases w ep "POST" (some (Oauth.sendPayload i.text)) with
        h | h | h | h <;> rw [h] <;> simp [Oauth.noTokenMsg, Oauth.execFailMsg,
          Oauth.refreshFailedMsg]

/-- Witness for C6: concrete empty-text and empty-id inputs are rejected
with the world returned untouched. -/
theorem c6_witness :
    Oauth.sendMessage baseWorld c6Input =
      ({ message := none, error := some "Message text is required" }, baseWorld) ∧
    Oauth.replyToMessage baseWorld c6Reply =
      ({ reply := none, error := some "Message ID and text are required" }, baseWorld) :=
  ⟨c6_empty_input_rejected_before_any_call.1 baseWorld c6Input rfl,
   c6_empty_input_rejected_before_any_call.2 baseWorld c6Reply (Or.inr rfl)⟩

/-- Witness for C10: with all four selectors present the channelId
endpoint wins, and the must-specify error does not appear. -/
theorem c10_witness :
    Oauth.selectEndpoint c10Input = some ("/channels/" ++ "A" ++ "/messages") ∧
    Oauth.selectEndpoint c10InputB = some ("/channelsbyname/" ++ "B" ++ "/message") ∧
    Oauth.selectEndpoint c10InputC = some ("/chats/" ++ "C" ++ "/messages") ∧
    Oauth.selectEndpoint c10InputD = some ("/users/" ++ "D" ++ "/messages") ∧
    (Oauth.sendMessage baseWorld c10Input).1.error ≠
      some "Must specify channelId, channelName, chatId, or userId" :=
  ⟨c10_multiple_selectors_priority.1 c10Input "A" rfl (by decide),
   c10_multiple_selectors_priority.2.1 c10InputB "B" rfl rfl (by decide),
   c10_multiple_selectors_priority.2.2.1 c10InputC "C" rfl rfl rfl (by decide),
   c10_multiple_selectors_priority.2.2.2.1 c10InputD "D" rfl rfl rfl rfl (by decide),
   c10_multiple_selectors_priority.2.2.2.2 baseWorld c10Input (by decide) (by decide)⟩

@[simp] theorem truthy_num (n : Int) : (Json.num n).truthy = (n != 0) := rfl
@[simp] theorem truthy_str (s : String) : (Json.str s).truthy = (s != "") := rfl

/-- Claim C3: the resolver tries its sources in fixed order with first
success winning: a truthy environment override is returned and cached at
once; the on-disk record is accepted only when its expiry instant is
strictly in the future, changing nothing but the in-memory slot; at or
past the expiry it falls through to the secret-store path; a successful
resolution repeats with no further effect; and with every source
exhausted the resolver returns none, which the dispatcher maps to the
single no-credential message. -/
theorem c3_resolution_order :
    (∀ w t, w.cachedToken = none → w.envToken = some t → t ≠ "" →
       Oauth.loadToken w = (some t, { w with cachedToken := some t })) ∧
    (∀ w cfg tk e, w.cachedToken = none → jsTruthyOpt w.envToken = false →
       w.configFile = some (some cfg) →
       cfg.get "access_token" = some tk → tk.truthy = true →
       cfg.get "expires_at" = some (.num e) → e ≠ 0 → w.now < e →
       Oauth.loadToken w = (some tk.interp, { w with cachedToken := some tk.interp })) ∧
    (∀ w cfg tk e, w.cachedToken = none → jsTruthyOpt w.envToken = false →
       w.configFile = some (some cfg) →
       cfg.get "access_token" = some tk →
       cfg.get "expires_at" = some (.num e) → e ≤ w.now →
       Oauth.loadToken w = Oauth.loadTokenOp w) ∧
    (∀ w t w1, Oauth.loadToken w = (some t, w1) → t ≠ "" →
       Oauth.loadToken w1 = (some t, w1)) ∧
    (∀ w, w.cachedToken = none → jsTruthyOpt w.envToken = false →
       w.configFile = none → jsTruthyOpt w.opRefreshToken = false →
       (Oauth.loadToken w).1 = none) ∧
    (∀ w endp m b, (Oauth.loadToken w).1 = none →
       (Oauth.apiRequest w endp m b).1 =
         { data := none, error := some Oauth.noTokenMsg }) := by
  refine ⟨?_, ?_, ?_, ?_, ?_, ?_⟩
  · intro w t h1 h2 h3
    simp [Oauth.loadToken, h1, h2, h3]
  · intro w cfg tk e h1 h2 h3 h4 h5 h6 h7 h8
    cases he : w.envToken with
    | none =>
      simp [Oauth.loadToken, Oauth.loadTokenFile, h1, he, h3, h4, h5, h6, h7, h8]
    | some s =>
      rw [he] at h2; simp at h2
      simp [Oauth.loadToken, Oauth.loadTokenFile, h1, he, h2, h3, h4, h5, h6, h7, h8]
  · intro w cfg tk e h1 h2 h3 h4 h5 h6
    have hnl : ¬ (w.now < e) := by omega
    cases he : w.envToken with
    | none =>
      simp [Oauth.loadToken, Oauth.loadTokenFile, h1, he, h3, h4, h5, hnl]
    | some s =>
      rw [he] at h2; simp at h2
      simp [Oauth.loadToken, Oauth.loadTokenFile, h1, he, h2, h3, h4, h5, hnl]
  · intro w t w1 h hne
    have hc := loadToken_caches w t (by rw [h])
    rw [h] at hc
    simp at hc
    simp [Oauth.loadToken, hc, hne]
  · intro w h1 h2 h3 h4
    cases he : w.envToken with
    | none =>
      cases hr : w.opRefreshToken with
      | none => simp [Oauth.loadToken, Oauth.loadTokenFile, Oauth.loadTokenOp,
          h1, he, h3, hr]
      | some rt =>
        rw [hr] at h4; simp at h4
        simp [Oauth.loadToken, Oauth.loadTokenFile, Oauth.loadTokenOp,
          h1, he, h3, hr, h4]
    | some s =>
      rw [he] at h2; simp at h2
      cases hr : w.opRefreshToken with
      | none => simp [Oauth.loadToken, Oauth.loadTokenFile, Oauth.loadTokenOp,
          h1, he, h2, h3, hr]
      | some rt =>
        rw [hr] at h4; simp at h4
        simp [Oauth.loadToken, Oauth.loadTokenFile, Oauth.loadTokenOp,
          h1, he, h2, h3, hr, h4]
  · intro w endp m b h
    simp [Oauth.apiRequest, h]

/-- Witness for C3: concrete worlds exercising the override, the valid
and the expired disk record, the idempotent repeat, and exhaustion. -/
theorem c3_witness :
    Oauth.loadToken c3EnvWorld =
      (some "envtok", { c3EnvWorld with cachedToken := some "envtok" }) ∧
    Oauth.loadToken c3DiskWorld =
      (some "disk", { c3DiskWorld with cachedToken := some "disk" }) ∧
    Oauth.loadToken c3ExpiredWorld = Oauth.loadTokenOp c3ExpiredWorld ∧
    Oauth.loadToken { c3EnvWorld with cachedToken := some "envtok" } =
      (some "envtok", { c3EnvWorld with cachedToken := some "envtok" }) ∧
    (Oauth.loadToken baseWorld).1 = none ∧
    (Oauth.apiRequest baseWorld "/channels" "GET" none).1 =
      { data := none, error := some Oauth.noTokenMsg } :=
  ⟨c3_resolution_order.1 c3EnvWorld "envtok" rfl rfl (by decide),
   c3_resolution_order.2.1 c3DiskWorld (Oauth.cacheRecord "disk" 100 0)
     (Json.str "disk") 100 rfl rfl rfl rfl rfl rfl (by decide) (by decide),
   c3_resolution_order.2.2.1 c3ExpiredWorld (Oauth.cacheRecord "disk" 100 0)
     (Json.str "disk") 100 rfl rfl rfl rfl rfl (by decide),
   c3_resolution_order.2.2.2.1 c3EnvWorld "envtok"
     { c3EnvWorld with cachedToken := some "envtok" } rfl (by decide),
   c3_resolution_order.2.2.2.2.1 baseWorld rfl rfl rfl rfl,
   c3_resolution_order.2.2.2.2.2 baseWorld "/channels" "GET" none rfl⟩

/-- Claim C4: a successful refresh exchange returns the access_token
value, computes the expiry instant as now plus the server lifetime
(3600 seconds when absent) times 1000, writes the record with mode 600 - a
failed write is non-fatal and leaves the file untouched - and updates the
in-memory cache; a missing client credential, a failed call, or a body
without access_token yields none. -/
theorem c4_refresh_exchange :
    (∀ w rt resp rest tk, jsTruthyOpt w.opClientId = true →
       jsTruthyOpt w.opClientSecret = true →
       w.refreshResponses = some resp :: rest →
       resp.get "access_token" = some tk → tk.truthy = true →
       (Oauth.refreshAccessToken w rt).1 = some tk.interp ∧
       (Oauth.refreshAccessToken w rt).2.cachedToken = some tk.interp ∧
       (Oauth.refreshAccessToken w rt).2.refreshResponses = rest ∧
       (w.fileWriteOk = true →
         (Oauth.refreshAccessToken w rt).2.configFile =
           some (some (Oauth.cacheRecord tk.interp
             (w.now + jsOrNum (resp.get "expires_in") 3600 * 1000) w.now)) ∧
         (Oauth.refreshAccessToken w rt).2.configMode = 384) ∧
       (w.fileWriteOk = false →
         (Oauth.refreshAccessToken w rt).2.configFile = w.configFile)) ∧
    (∀ d, jsOrNum none d = d) ∧
    (∀ n d, n ≠ 0 → jsOrNum (some (Json.num n)) d = n) ∧
    (∀ w rt, (jsTruthyOpt w.opClientId = false ∨ jsTruthyOpt w.opClientSecret = false) →
       Oauth.refreshAccessToken w rt =
         (none, Oauth.pushEvent (Oauth.pushEvent w
           (Event.opLookup Oauth.opItemId "client_id"))
           (Event.opLookup Oauth.opItemId "client_secret"))) ∧
    (∀ w rt rest, jsTruthyOpt w.opClientId = true →
       jsTruthyOpt w.opClientSecret = true →
       w.refreshResponses = none :: rest →
       (Oauth.refreshAccessToken w rt).1 = none) ∧
    (∀ w rt resp rest, jsTruthyOpt w.opClientId = true →
       jsTruthyOpt w.opClientSecret = true →
       w.refreshResponses = some resp :: rest → resp.get "access_token" = none →
       (Oauth.refreshAccessToken w rt).1 = none) := by
  refine ⟨?_, ?_, ?_, ?_, ?_, ?_⟩
  · intro w rt resp rest tk h1 h2 h3 h4 h5
    cases hf : w.fileWriteOk <;>
      simp [Oauth.refreshAccessToken, h1, h2, h3, h4, h5, hf]
  · intro d; rfl
  · intro n d hn; simp [jsOrNum, hn]
  · intro w rt h
    rcases h with h | h <;> simp [Oauth.refreshAccessToken, h]
  · intro w rt rest h1 h2 h3
    simp [Oauth.refreshAccessToken, h1, h2, h3]
  · intro w rt resp rest h1 h2 h3 h4
    simp [Oauth.refreshAccessToken, h1, h2, h3, h4]

/-- Witness for C4: a concrete exchange with lifetime 7200 produces the
expected record, and the three failure shapes produce none. -/
theorem c4_witness :
    (Oauth.refreshAccessToken c4World "rt").1 = some "newtok" ∧
    (Oauth.refreshAccessToken c4World "rt").2.cachedToken = some "newtok" ∧
    (Oauth.refreshAccessToken c4World "rt").2.configFile =
      some (some (Oauth.cacheRecord "newtok" 7201000 1000)) ∧
    (Oauth.refreshAccessToken c4World "rt").2.configMode = 384 ∧
    jsOrNum none 3600 = 3600 ∧
    jsOrNum (some (Json.num 7200)) 3600 = 7200 ∧
    (Oauth.refreshAccessToken baseWorld "rt").1 = none ∧
    (Oauth.refreshAccessToken c4NetFailWorld "rt").1 = none ∧
    (Oauth.refreshAccessToken c4NoTokWorld "rt").1 = none := by
  have ha := c4_refresh_exchange.1 c4World "rt" c4Resp [] (Json.str "newtok")
    rfl rfl rfl rfl rfl
  have hd := c4_refresh_exchange.2.2.2.1 baseWorld "rt" (Or.inl rfl)
  have he := c4_refresh_exchange.2.2.2.2.1 c4NetFailWorld "rt" [] rfl rfl rfl
  have hf := c4_refresh_exchange.2.2.2.2.2 c4NoTokWorld "rt"
    (Json.obj [("error", .str "invalid_code")]) [] rfl rfl rfl rfl
  refine ⟨ha.1, ha.2.1, ?_, (ha.2.2.2.1 rfl).2,
    c4_refresh_exchange.2.1 3600,
    c4_refresh_exchange.2.2.1 7200 3600 (by decide), ?_, he, hf⟩
  · have := (ha.2.2.2.1 rfl).1
    simpa using this
  · rw [hd]

/-- Two appended strings differ whenever their leading literals differ at
some position inside both. -/
theorem tmpl_ne (p q a b x y : String) (i : Nat)
    (hp : i < p.data.length) (hq : i < q.data.length)
    (hne : p.data[i]? ≠ q.data[i]?) :
    p ++ a ++ x ≠ q ++ b ++ y := by
  intro h
  apply hne
  have hd : p.data ++ a.data ++ x.data = q.data ++ b.data ++ y.data :=
    congrArg String.data h
  rw [List.append_assoc, List.append_assoc] at hd
  have h2 := congrArg (fun l => l[i]?) hd
  simp only [] at h2
  rwa [List.getElem?_append_left hp, List.getElem?_append_left hq] at h2

/-- The or-else idiom yields the default on a falsy left operand. -/
theorem jsOr_falsy (a : Option String) (d : String) :
    jsTruthyOpt a = false → jsOr a d = d := by
  cases a <;> simp [jsOr, jsTruthyOpt]
  intro h; simp [h]

@[simp] theorem wPushEvent_envZapikey (w : Webhook.World) (e : Event) :
    (Webhook.pushEvent w e).envZapikey = w.envZapikey := rfl
@[simp] theorem wPushEvent_opCredential (w : Webhook.World) (e : Event) :
    (Webhook.pushEvent w e).opCredential = w.opCredential := rfl
@[simp] theorem wPushEvent_opRefreshToken (w : Webhook.World) (e : Event) :
    (Webhook.pushEvent w e).opRefreshToken = w.opRefreshToken := rfl
@[simp] theorem wPushEvent_opClientId (w : Webhook.World) (e : Event) :
    (Webhook.pushEvent w e).opClientId = w.opClientId := rfl
@[simp] theorem wPushEvent_opClientSecret (w : Webhook.World) (e : Event) :
    (Webhook.pushEvent w e).opClientSecret = w.opClientSecret := rfl
@[simp] theorem wPushEvent_refreshResponses (w : Webhook.World) (e : Event) :
    (Webhook.pushEvent w e).refreshResponses = w.refreshResponses := rfl
@[simp] theorem wPushEvent_httpResponses (w : Webhook.World) (e : Event) :
    (Webhook.pushEvent w e).httpResponses = w.httpResponses := rfl
@[simp] theorem wPushEvent_now (w : Webhook.World) (e : Event) :
    (Webhook.pushEvent w e).now = w.now := rfl
@[simp] theorem wPushEvent_cachedZapikey (w : Webhook.World) (e : Event) :
    (Webhook.pushEvent w e).cachedZapikey = w.cachedZapikey := rfl
@[simp] theorem wPushEvent_cachedOAuthToken (w : Webhook.World) (e : Event) :
    (Webhook.pushEvent w e).cachedOAuthToken = w.cachedOAuthToken := rfl
@[simp] theorem wPushEvent_oauthExpiresAt (w : Webhook.World) (e : Event) :
    (Webhook.pushEvent w e).oauthExpiresAt = w.oauthExpiresAt := rfl
@[simp] theorem wPushEvent_defaultChannel (w : Webhook.World) (e : Event) :
    (Webhook.pushEvent w e).defaultChannel = w.defaultChannel := rfl
@[simp] theorem wPushEvent_botName (w : Webhook.World) (e : Event) :
    (Webhook.pushEvent w e).botName = w.botName := rfl
@[simp] theorem wPushEvent_trace (w : Webhook.World) (e : Event) :
    (Webhook.pushEvent w e).trace = w.trace ++ [e] := rfl

/-- Claim C5: with exactly one truthy selector the OAuth sendMessage picks
the endpoint of that selector; the four URL templates are pairwise
distinct for all identifier values; with no selector it returns the
must-specify error leaving the world untouched; the dispatch issues one
POST to the selected endpoint with the resolved token; and the webhook
variant substitutes the configured default channel when no channel name is
given. -/
theorem c5_selector_dispatch :
    (∀ i c, i.channelId = some c → c ≠ "" → jsTruthyOpt i.channelName = false →
       jsTruthyOpt i.chatId = false → jsTruthyOpt i.userId = false →
       Oauth.selectEndpoint i = some ("/channels/" ++ c ++ "/messages")) ∧
    (∀ i c, jsTruthyOpt i.channelId = false → i.channelName = some c → c ≠ "" →
       jsTruthyOpt i.chatId = false → jsTruthyOpt i.userId = false →
       Oauth.selectEndpoint i = some ("/channelsbyname/" ++ c ++ "/message")) ∧
    (∀ i c, jsTruthyOpt i.channelId = false → jsTruthyOpt i.channelName = false →
       i.chatId = some c → c ≠ "" → jsTruthyOpt i.userId = false →
       Oauth.selectEndpoint i = some ("/chats/" ++ c ++ "/messages")) ∧
    (∀ i c, jsTruthyOpt i.channelId = false → jsTruthyOpt i.channelName = false →
       jsTruthyOpt i.chatId = false → i.userId = some c → c ≠ "" →
       Oauth.selectEndpoint i = some ("/users/" ++ c ++ "/messages")) ∧
    (∀ a b : String,
       "/channels/" ++ a ++ "/messages" ≠ "/channelsbyname/" ++ b ++ "/message" ∧
       "/channels/" ++ a ++ "/messages" ≠ "/chats/" ++ b ++ "/messages" ∧
       "/channels/" ++ a ++ "/messages" ≠ "/users/" ++ b ++ "/messages" ∧
       "/channelsbyname/" ++ a ++ "/message" ≠ "/chats/" ++ b ++ "/messages" ∧
       "/channelsbyname/" ++ a ++ "/message" ≠ "/users/" ++ b ++ "/messages" ∧
       "/chats/" ++ a ++ "/messages" ≠ "/users/" ++ b ++ "/messages") ∧
    (∀ w i, ¬ i.text = "" → jsTruthyOpt i.channelId = false →
       jsTruthyOpt i.channelName = false → jsTruthyOpt i.chatId = false →
       jsTruthyOpt i.userId = false →
       Oauth.sendMessage w i =
         ({ message := none,
            error := some "Must specify channelId, channelName, chatId, or userId" }, w)) ∧
    (∀ w i ep t s b rest, w.cachedToken = some t → t ≠ "" → ¬ i.text = "" →
       Oauth.selectEndpoint i = some ep →
       w.apiResponses = (s, some b) :: rest → Oauth.authRejected b = false →
       (Oauth.sendMessage w i).2.trace =
         w.trace ++ [Event.apiCall
           (if jsStartsWith ep "http" then ep else Oauth.baseUrl ++ ep)
           "POST" (some (Oauth.sendPayload i.text)) (some t)]) ∧
    (∀ w i k s d rest, w.cachedZapikey = some k → k ≠ "" → ¬ i.text = "" →
       jsTruthyOpt i.channelName = false →
       w.httpResponses = (s, d) :: rest →
       (Webhook.sendMessage w i).2.trace =
         w.trace ++ [Event.apiCall (Webhook.webhookUrl w.botName k) "POST"
           (some (Json.obj [("text", .str i.text),
                            ("channel", .str w.defaultChannel)])) none]) := by
  refine ⟨?_, ?_, ?_, ?_, ?_, ?_, ?_, ?_⟩
  · intro i c h hc _ _ _
    simp [Oauth.selectEndpoint, h, hc]
  · intro i c h0 h hc _ _
    simp [Oauth.selectEndpoint, h0, h, hc]
  · intro i c h0 h1 h hc _
    simp [Oauth.selectEndpoint, h0, h1, h, hc]
  · intro i c h0 h1 h2 h hc
    simp [Oauth.selectEndpoint, h0, h1, h2, h, hc]
  · intro a b
    refine ⟨tmpl_ne _ _ _ _ _ _ 9 (by decide) (by decide) (by decide),
            tmpl_ne _ _ _ _ _ _ 4 (by decide) (by decide) (by decide),
            tmpl_ne _ _ _ _ _ _ 1 (by decide) (by decide) (by decide),
            tmpl_ne _ _ _ _ _ _ 4 (by decide) (by decide) (by decide),
            tmpl_ne _ _ _ _ _ _ 1 (by decide) (by decide) (by decide),
            tmpl_ne _ _ _ _ _ _ 1 (by decide) (by decide) (by decide)⟩
  · intro w i ht h0 h1 h2 h3
    have hse : Oauth.selectEndpoint i = none :=
      (selectEndpoint_none_iff i).mpr ⟨h0, h1, h2, h3⟩
    simp [Oauth.sendMessage, ht, hse]
  · intro w i ep t s b rest hcache htne ht hse hresp hrej
    cases hb : b.truthy <;>
      simp [Oauth.sendMessage, ht, hse, Oauth.apiRequest, Oauth.loadToken,
        hcache, htne, Oauth.popApi, hresp, hrej, hb]
  · intro w i k s d rest hk hkne ht hcn hresp
    have hchan := jsOr_falsy i.channelName w.defaultChannel hcn
    by_cases hst : 200 ≤ s ∧ s < 300
    · simp [Webhook.sendMessage, ht, Webhook.getZapikey, hk, hkne,
        Webhook.curlJson, hresp, hchan, hst.1, hst.2]
    · rcases not_and_or.mp hst with h | h <;>
        simp [Webhook.sendMessage, ht, Webhook.getZapikey, hk, hkne,
          Webhook.curlJson, hresp, hchan, h, Nat.lt_of_not_le, Nat.not_lt.mp]

/-- Witness for C5: the four singleton-selector inputs, a template
collision check, the no-selector rejection, a dispatched POST, and the
webhook default-channel substitution, all at concrete worlds. -/
theorem c5_witness :
    Oauth.selectEndpoint c5InA = some ("/channels/" ++ "A" ++ "/messages") ∧
    Oauth.selectEndpoint c5InB = some ("/channelsbyname/" ++ "B" ++ "/message") ∧
    Oauth.selectEndpoint c5InC = some ("/chats/" ++ "C" ++ "/messages") ∧
    Oauth.selectEndpoint c5InD = some ("/users/" ++ "D" ++ "/messages") ∧
    ("/channels/" ++ "42" ++ "/messages" ≠ "/channelsbyname/" ++ "42" ++ "/message") ∧
    Oauth.sendMessage baseWorld c5InNone =
      ({ message := none,
         error := some "Must specify channelId, channelName, chatId, or userId" },
       baseWorld) ∧
    (Oauth.sendMessage c5DispatchWorld c5InA).2.trace =
      c5DispatchWorld.trace ++ [Event.apiCall
        (if jsStartsWith ("/channels/" ++ "A" ++ "/messages") "http" then
          "/channels/" ++ "A" ++ "/messages"
         else Oauth.baseUrl ++ ("/channels/" ++ "A" ++ "/messages"))
        "POST" (some (Oauth.sendPayload c5InA.text)) (some "tok")] ∧
    (Webhook.sendMessage c5WebWorld c5WebIn).2.trace =
      c5WebWorld.trace ++ [Event.apiCall
        (Webhook.webhookUrl c5WebWorld.botName "zap") "POST"
        (some (Json.obj [("text", .str c5WebIn.text),
                         ("channel", .str c5WebWorld.defaultChannel)])) none] :=
  ⟨c5_selector_dispatch.1 c5InA "A" rfl (by decide) rfl rfl rfl,
   c5_selector_dispatch.2.1 c5InB "B" rfl rfl (by decide) rfl rfl,
   c5_selector_dispatch.2.2.1 c5InC "C" rfl rfl rfl (by decide) rfl,
   c5_selector_dispatch.2.2.2.1 c5InD "D" rfl rfl rfl rfl (by decide),
   (c5_selector_dispatch.2.2.2.2.1 "42" "42").1,
   c5_selector_dispatch.2.2.2.2.2.1 baseWorld c5InNone (by decide) rfl rfl rfl rfl,
   c5_selector_dispatch.2.2.2.2.2.2.1 c5DispatchWorld c5InA
     ("/channels/" ++ "A" ++ "/messages") "tok" 201 c2Body [] rfl (by decide)
     (by decide) rfl rfl rfl,
   c5_selector_dispatch.2.2.2.2.2.2.2 c5WebWorld c5WebIn "zap" 204 none [] rfl
     (by decide) (by decide) rfl rfl⟩

/-- A value with a readable field is an object, hence truthy. -/
theorem get_some_truthy (d : Json) (k : String) (v : Json) :
    d.get k = some v → d.truthy = true := by
  cases d <;> simp [Json.get, Json.truthy]

/-- Claim C7 counterexample: a 200 response whose parsed body is the
number 0 lacks the channel field, yet the OAuth listChannels returns an
empty list with a null error instead of the unexpected-shape failure. -/
theorem c7_counterexample :
    (Json.num 0).get "channels" = none ∧
    (Oauth.listChannels c7World).1 = { channels := [], error := none } :=
  ⟨rfl, rfl⟩

/-- Claim C7 (amended): listChannels returns the unexpected-shape failure
with an empty list when a truthy, non-auth-rejected OAuth body lacks the
channels field, and in the webhook variant for every 2xx body lacking the
field; a parsed-but-falsy OAuth body instead yields an empty list with a
null error; mapped channels copy id, name and unique_name verbatim. -/
theorem c7_shape_amended :
    (∀ w t s d rest, w.cachedToken = some t → t ≠ "" →
       w.apiResponses = (s, some d) :: rest → d.truthy = true →
       Oauth.authRejected d = false → d.get "channels" = none →
       (Oauth.listChannels w).1 =
         { channels := [], error := some "Unexpected response format" }) ∧
    (∀ w t s d rest xs, w.cachedToken = some t → t ≠ "" →
       w.apiResponses = (s, some d) :: rest → Oauth.authRejected d = false →
       d.get "channels" = some (.arr xs) →
       (Oauth.listChannels w).1 =
         { channels := xs.map Oauth.mapChannel, error := none }) ∧
    (∀ j, (Oauth.mapChannel j).id = j.get "id" ∧
       (Oauth.mapChannel j).name = j.get "name" ∧
       (Oauth.mapChannel j).unique_name = j.get "unique_name") ∧
    (∀ w tok s d rest, w.cachedOAuthToken = some tok → tok ≠ "" →
       w.now < w.oauthExpiresAt → w.httpResponses = (s, d) :: rest →
       200 ≤ s → s < 300 → (∀ dd, d = some dd → dd.get "channels" = none) →
       (Webhook.listChannels w).1 =
         { channels := [], error := some "Unexpected response format" }) ∧
    (∀ w tok s d rest xs, w.cachedOAuthToken = some tok → tok ≠ "" →
       w.now < w.oauthExpiresAt → w.httpResponses = (s, some d) :: rest →
       200 ≤ s → s < 300 → d.get "channels" = some (.arr xs) →
       (Webhook.listChannels w).1 =
         { channels := xs.map Oauth.mapChannel, error := none }) := by
  refine ⟨?_, ?_, ?_, ?_, ?_⟩
  · intro w t s d rest hc hne hr htr hrej hget
    simp [Oauth.listChannels, Oauth.apiRequest, Oauth.loadToken, hc, hne,
      Oauth.popApi, hr, hrej, htr, hget]
  · intro w t s d rest xs hc hne hr hrej hget
    have htr := get_some_truthy d "channels" (.arr xs) hget
    simp [Oauth.listChannels, Oauth.apiRequest, Oauth.loadToken, hc, hne,
      Oauth.popApi, hr, hrej, htr, hget]
  · intro j; exact ⟨rfl, rfl, rfl⟩
  · intro w tok s d rest hc hne hexp hr h200 h300 hget
    have h1 : ¬ (s < 200) := Nat.not_lt.mpr h200
    have h2 : ¬ (300 ≤ s) := Nat.not_le.mpr h300
    cases d with
    | none =>
      simp [Webhook.listChannels, Webhook.getOAuthToken, hc, hne, hexp,
        Webhook.curlJson, hr, h1, h2]
    | some dd =>
      have hg := hget dd rfl
      simp [Webhook.listChannels, Webhook.getOAuthToken, hc, hne, hexp,
        Webhook.curlJson, hr, h1, h2, hg]
  · intro w tok s d rest xs hc hne hexp hr h200 h300 hget
    have h1 : ¬ (s < 200) := Nat.not_lt.mpr h200
    have h2 : ¬ (300 ≤ s) := Nat.not_le.mpr h300
    simp [Webhook.listChannels, Webhook.getOAuthToken, hc, hne, hexp,
      Webhook.curlJson, hr, h1, h2, hget]

/-- Witness for C7: concrete missing-field and well-formed bodies in both
variants, and the verbatim field copy on a concrete entry. -/
theorem c7_witness :
    (Oauth.listChannels c7NoFieldWorld).1 =
      { channels := [], error := some "Unexpected response format" } ∧
    (Oauth.listChannels c7GoodWorld).1 =
      { channels := [Oauth.mapChannel chanEntry], error := none } ∧
    (Oauth.mapChannel chanEntry).id = chanEntry.get "id" ∧
    (Webhook.listChannels c7WebNoFieldWorld).1 =
      { channels := [], error := some "Unexpected response format" } ∧
    (Webhook.listChannels c7WebGoodWorld).1 =
      { channels := [Oauth.mapChannel chanEntry], error := none } :=
  ⟨c7_shape_amended.1 c7NoFieldWorld "tok" 200 (Json.obj [("ok", .bool true)]) []
     rfl (by decide) rfl rfl rfl rfl,
   c7_shape_amended.2.1 c7GoodWorld "tok" 200 chanBody [] [chanEntry]
     rfl (by decide) rfl rfl rfl,
   (c7_shape_amended.2.2.1 chanEntry).1,
   c7_shape_amended.2.2.2.1 c7WebNoFieldWorld "tok" 200
     (some (Json.obj [("ok", .bool true)])) [] rfl (by decide) (by decide) rfl
     (by decide) (by decide)
     (by intro dd h; injection h with h2; subst h2; rfl),
   c7_shape_amended.2.2.2.2 c7WebGoodWorld "tok" 200 chanBody [] [chanEntry]
     rfl (by decide) (by decide) rfl (by decide) (by decide) rfl⟩

@[simp] theorem isHttpError_none : isHttpError none = false := rfl
@[simp] theorem isHttpError_unexpected :
    isHttpError (some "Unexpected response format") = false := by decide
@[simp] theorem isHttpError_mapThrow :
    isHttpError (some Oauth.mapThrowMsg) = false := by decide

/-- Claim C2 counterexample: in the OAuth variant a queued exchange with
HTTP status 500 and a JSON body is returned by sendMessage as a success
with a null error; no failure carrying the status code is produced. -/
theorem c2_counterexample :
    c2World.apiResponses = [(500, some c2Body)] ∧
    (Oauth.sendMessage c2World c2Input).1 =
      { message := some c2Body, error := none } :=
  ⟨rfl, rfl⟩

/-- Claim C2 (amended): the webhook variant classifies by status -
listChannels and sendMessage wrap a non-2xx status and the stringified
body into the error, and a 2xx status never yields an HTTP-shaped error -
while the OAuth variant of apiRequest never observes the status: the same
parsed body yields the same success result for every status value. -/
theorem c2_status_amended :
    (∀ w tok s d rest, w.cachedOAuthToken = some tok → tok ≠ "" →
       w.now < w.oauthExpiresAt → w.httpResponses = (s, d) :: rest →
       (s < 200 ∨ 300 ≤ s) →
       (Webhook.listChannels w).1 =
         { channels := [], error := some (Webhook.httpErr s d) }) ∧
    (∀ w i k s d rest, w.cachedZapikey = some k → k ≠ "" → ¬ i.text = "" →
       w.httpResponses = (s, d) :: rest → (s < 200 ∨ 300 ≤ s) →
       (Webhook.sendMessage w i).1 =
         { success := false, error := some (Webhook.httpErr s d) }) ∧
    (∀ w i k s d rest, w.cachedZapikey = some k → k ≠ "" → ¬ i.text = "" →
       w.httpResponses = (s, d) :: rest → 200 ≤ s → s < 300 →
       (Webhook.sendMessage w i).1 = { success := true, error := none }) ∧
    (∀ w tok s d rest, w.cachedOAuthToken = some tok → tok ≠ "" →
       w.now < w.oauthExpiresAt → w.httpResponses = (s, d) :: rest →
       200 ≤ s → s < 300 →
       isHttpError (Webhook.listChannels w).1.error = false) ∧
    (∀ s, (Oauth.apiRequest (c2StatusWorld s) "/channels" "GET" none).1 =
       { data := some c2Body, error := none }) := by
  refine ⟨?_, ?_, ?_, ?_, ?_⟩
  · intro w tok s d rest hc hne hexp hr hs
    rcases hs with h | h
    · simp [Webhook.listChannels, Webhook.getOAuthToken, hc, hne, hexp,
        Webhook.curlJson, hr, h]
    · have h2 : ¬ (s < 200) := by omega
      simp [Webhook.listChannels, Webhook.getOAuthToken, hc, hne, hexp,
        Webhook.curlJson, hr, h2, h]
  · intro w i k s d rest hk hkne ht hr hs
    have hcond : ¬ (200 ≤ s ∧ s < 300) := by omega
    simp [Webhook.sendMessage, ht, Webhook.getZapikey, hk, hkne,
      Webhook.curlJson, hr, hcond]
  · intro w i k s d rest hk hkne ht hr h200 h300
    simp [Webhook.sendMessage, ht, Webhook.getZapikey, hk, hkne,
      Webhook.curlJson, hr, h200, h300]
  · intro w tok s d rest hc hne hexp hr h200 h300
    have h1 : ¬ (s < 200) := Nat.not_lt.mpr h200
    have h2 : ¬ (300 ≤ s) := Nat.not_le.mpr h300
    cases d with
    | none =>
      simp [Webhook.listChannels, Webhook.getOAuthToken, hc, hne, hexp,
        Webhook.curlJson, hr, h1, h2]
    | some dd =>
      cases hg : dd.get "channels" with
      | none =>
        simp [Webhook.listChannels, Webhook.getOAuthToken, hc, hne, hexp,
          Webhook.curlJson, hr, h1, h2, hg]
      | some j =>
        cases j with
        | arr xs =>
          simp [Webhook.listChannels, Webhook.getOAuthToken, hc, hne, hexp,
            Webhook.curlJson, hr, h1, h2, hg]
        | null =>
          simp [Webhook.listChannels, Webhook.getOAuthToken, hc, hne, hexp,
            Webhook.curlJson, hr, h1, h2, hg, Json.truthy]
        | bool b =>
          cases b <;>
            simp [Webhook.listChannels, Webhook.getOAuthToken, hc, hne, hexp,
              Webhook.curlJson, hr, h1, h2, hg, Json.truthy]
        | num n =>
          by_cases hn : n = (0 : Int) <;>
            simp [Webhook.listChannels, Webhook.getOAuthToken, hc, hne, hexp,
              Webhook.curlJson, hr, h1, h2, hg, Json.truthy, hn]
        | str ss =>
          by_cases hss : ss = "" <;>
            simp [Webhook.listChannels, Webhook.getOAuthToken, hc, hne, hexp,
              Webhook.curlJson, hr, h1, h2, hg, Json.truthy, hss]
        | obj fs =>
          simp [Webhook.listChannels, Webhook.getOAuthToken, hc, hne, hexp,
            Webhook.curlJson, hr, h1, h2, hg, Json.truthy]
  · intro s; rfl

/-- Witness for C2: concrete 404, 500, 204 and 200 exchanges in the
webhook variant, and the status-blind OAuth dispatch at 500. -/
theorem c2_witness :
    (Webhook.listChannels c2WebWorld).1 =
      { channels := [], error := some (Webhook.httpErr 404 (some c2Body)) } ∧
    (Webhook.sendMessage c2WebSendWorld c5WebIn).1 =
      { success := false, error := some (Webhook.httpErr 500 (some c2Body)) } ∧
    (Webhook.sendMessage c2WebOkWorld c5WebIn).1 =
      { success := true, error := none } ∧
    isHttpError (Webhook.listChannels c7WebNoFieldWorld).1.error = false ∧
    (Oauth.apiRequest (c2StatusWorld 500) "/channels" "GET" none).1 =
      { data := some c2Body, error := none } :=
  ⟨c2_status_amended.1 c2WebWorld "tok" 404 (some c2Body) [] rfl (by decide)
     (by decide) rfl (Or.inr (by decide)),
   c2_status_amended.2.1 c2WebSendWorld c5WebIn "zap" 500 (some c2Body) [] rfl
     (by decide) (by decide) rfl (Or.inr (by decide)),
   c2_status_amended.2.2.1 c2WebOkWorld c5WebIn "zap" 204 none [] rfl
     (by decide) (by decide) rfl (by decide) (by decide),
   c2_status_amended.2.2.2.1 c7WebNoFieldWorld "tok" 200
     (some (Json.obj [("ok", .bool true)])) [] rfl (by decide) (by decide) rfl
     (by decide) (by decide),
   c2_status_amended.2.2.2.2 500⟩

/-- Claim C1 counterexample: with both queued exchanges answering with the
INVALID_OAUTH code and an environment override available for
re-resolution, exactly one retry happens and the retried rejection body is
returned as data with a null error, not as an UpstreamHttpError failure as
the claim states. -/
theorem c1_counterexample :
    Oauth.authRejected authRejBody = true ∧
    (Oauth.apiRequest c1World "/channels" "GET" none).1 =
      { data := some authRejBody, error := none } ∧
    (Oauth.apiRequest c1World "/channels" "GET" none).2.trace =
      [Event.apiCall (Oauth.baseUrl ++ "/channels") "GET" none (some "t1"),
       Event.apiCall (Oauth.baseUrl ++ "/channels") "GET" none (some "t2")] :=
  ⟨rfl, rfl, rfl⟩

/-- Claim C1 (amended): on an auth-rejection body the OAuth dispatcher
invalidates the cached credential, re-resolves exactly once, and reissues
the identical request - same url, method and body - with the new token in
the authorization slot; if re-resolution fails it returns the
credential-refresh failure after a single network call; at most one retry
is ever attempted, and the retried response, even a second auth rejection,
is returned as data with a null error rather than as an UpstreamHttpError
failure. -/
theorem c1_retry_amended :
    (∀ w e m b t1 t2 s1 s2 b1 b2 rest,
       w.trace = [] → w.cachedToken = some t1 → t1 ≠ "" → w.configFile = none →
       w.envToken = some t2 → t2 ≠ "" →
       w.apiResponses = (s1, some b1) :: (s2, some b2) :: rest →
       Oauth.authRejected b1 = true →
       (Oauth.apiRequest w e m b).1 = { data := some b2, error := none } ∧
       (Oauth.apiRequest w e m b).2.trace =
         [Event.apiCall (if jsStartsWith e "http" then e else Oauth.baseUrl ++ e)
            m b (some t1),
          Event.apiCall (if jsStartsWith e "http" then e else Oauth.baseUrl ++ e)
            m b (some t2)] ∧
       (Oauth.apiRequest w e m b).2.cachedToken = some t2 ∧
       (Oauth.apiRequest w e m b).2.apiResponses = rest) ∧
    (∀ w e m b t1 s1 b1 rest,
       w.trace = [] → w.cachedToken = some t1 → t1 ≠ "" → w.configFile = none →
       jsTruthyOpt w.envToken = false → jsTruthyOpt w.opRefreshToken = false →
       w.apiResponses = (s1, some b1) :: rest →
       Oauth.authRejected b1 = true →
       (Oauth.apiRequest w e m b).1 =
         { data := none, error := some Oauth.refreshFailedMsg } ∧
       (Oauth.apiRequest w e m b).2.trace =
         [Event.apiCall (if jsStartsWith e "http" then e else Oauth.baseUrl ++ e)
            m b (some t1),
          Event.opLookup Oauth.opItemId "refresh_token"]) := by
  constructor
  · intro w e m b t1 t2 s1 s2 b1 b2 rest htr hc ht1 hcf henv ht2 hresp hrej
    refine ⟨?_, ?_, ?_, ?_⟩ <;>
      simp [Oauth.apiRequest, Oauth.loadToken, hc, ht1, Oauth.popApi, hresp,
        hrej, Oauth.clearTokenCache, hcf, henv, ht2, htr]
  · intro w e m b t1 s1 b1 rest htr hc ht1 hcf henv hop hresp hrej
    cases he : w.envToken with
    | none =>
      cases hr : w.opRefreshToken with
      | none =>
        refine ⟨?_, ?_⟩ <;>
          simp [Oauth.apiRequest, Oauth.loadToken, Oauth.loadTokenFile,
            Oauth.loadTokenOp, hc, ht1, Oauth.popApi, hresp, hrej,
            Oauth.clearTokenCache, hcf, he, hr, htr]
      | some rt =>
        rw [hr] at hop; simp at hop
        refine ⟨?_, ?_⟩ <;>
          simp [Oauth.apiRequest, Oauth.loadToken, Oauth.loadTokenFile,
            Oauth.loadTokenOp, hc, ht1, Oauth.popApi, hresp, hrej,
            Oauth.clearTokenCache, hcf, he, hr, hop, htr]
    | some s =>
      rw [he] at henv; simp at henv
      cases hr : w.opRefreshToken with
      | none =>
        refine ⟨?_, ?_⟩ <;>
          simp [Oauth.apiRequest, Oauth.loadToken, Oauth.loadTokenFile,
            Oauth.loadTokenOp, hc, ht1, Oauth.popApi, hresp, hrej,
            Oauth.clearTokenCache, hcf, he, henv, hr, htr]
      | some rt =>
        rw [hr] at hop; simp at hop
        refine ⟨?_, ?_⟩ <;>
          simp [Oauth.apiRequest, Oauth.loadToken, Oauth.loadTokenFile,
            Oauth.loadTokenOp, hc, ht1, Oauth.popApi, hresp, hrej,
            Oauth.clearTokenCache, hcf, he, henv, hr, hop, htr]

/-- Witness for C1: the retry scenario and the refresh-failure scenario
instantiated at concrete worlds. -/
theorem c1_witness :
    (Oauth.apiRequest c1World "/channels" "GET" none).1 =
      { data := some authRejBody, error := none } ∧
    (Oauth.apiRequest c1World "/channels" "GET" none).2.cachedToken = some "t2" ∧
    (Oauth.apiRequest c1WorldB "/channels" "GET" none).1 =
      { data := none, error := some Oauth.refreshFailedMsg } ∧
    (Oauth.apiRequest c1WorldB "/channels" "GET" none).2.trace =
      [Event.apiCall
         (if jsStartsWith "/channels" "http" then "/channels"
          else Oauth.baseUrl ++ "/channels") "GET" none (some "t1"),
       Event.opLookup Oauth.opItemId "refresh_token"] :=
  ⟨(c1_retry_amended.1 c1World "/channels" "GET" none "t1" "t2" 200 200
      authRejBody authRejBody [] rfl rfl (by decide) rfl rfl (by decide)
      rfl rfl).1,
   (c1_retry_amended.1 c1World "/channels" "GET" none "t1" "t2" 200 200
      authRejBody authRejBody [] rfl rfl (by decide) rfl rfl (by decide)
      rfl rfl).2.2.1,
   (c1_retry_amended.2 c1WorldB "/channels" "GET" none "t1" 200
      authRejBody [] rfl rfl (by decide) rfl rfl rfl rfl rfl).1,
   (c1_retry_amended.2 c1WorldB "/channels" "GET" none "t1" 200
      authRejBody [] rfl rfl (by decide) rfl rfl rfl rfl rfl).2⟩
